import Mathlib

/-!
Verification development for the Personal Finance AI Agent application
(a single-file Streamlit app driving a three-node LangGraph pipeline:
analyzer -> budgetor -> investor).

The external collaborators (BigQuery ledger, the Gemini text-generation
service) are modelled as explicit inputs: a run is parameterised by the
lookup result the ledger would return and by the text (or failure) each
stage's generation call would produce.  Every function below is a direct
shallow embedding of the corresponding Python definition in app.py;
exceptions raised by the Python code are modelled with Except, and the
partial TypedDict state with a record of Option fields.
-/

set_option maxRecDepth 8000

/-! ## String utilities: the Python substring operator and helpers -/

/-- Boolean test that the first list is a prefix of the second
(character-by-character comparison). -/
def isPrefixCh : List Char → List Char → Bool
  | [], _ => true
  | _ :: _, [] => false
  | a :: as, b :: bs => a = b && isPrefixCh as bs

/-- Boolean test that the needle occurs as a contiguous substring of the
haystack; this is exactly the semantics of the Python expression
needle in haystack for strings. -/
def containsSub (needle : List Char) : List Char → Bool
  | [] => needle.isEmpty
  | c :: t => isPrefixCh needle (c :: t) || containsSub needle t

/-- The Python string membership test, on Lean strings. -/
def strContains (hay needle : String) : Bool :=
  containsSub needle.toList hay.toList

/-! ## The ledger tool (app.py PART 2, get_transaction_data) -/

/-- One row of the BigQuery result: the columns selected by the query in
get_transaction_data.  Amounts are modelled as integers (the claims under
verification only depend on signs and sums, not on decimal rendering). -/
structure Transaction where
  date : String
  description : String
  amount : Int
  category : String
  bank_name : String
deriving DecidableEq, Repr

/-- json.dumps of a single transaction dict, with the key order used by the
SELECT in get_transaction_data and Python's default separators.  Field
strings are assumed free of characters that json.dumps would escape. -/
def dumpTransaction (t : Transaction) : String :=
  "\x7b\"date\": \"" ++ t.date ++ "\", \"description\": \"" ++ t.description ++
    "\", \"amount\": " ++ toString t.amount ++ ", \"category\": \"" ++ t.category ++
    "\", \"bank_name\": \"" ++ t.bank_name ++ "\"\x7d"

/-- json.dumps of the transaction list. -/
def dumpTransactionList (ts : List Transaction) : String :=
  "[" ++ String.intercalate ", " (ts.map dumpTransaction) ++ "]"

/-- The JSON error payload returned when the query yields no rows. -/
def noTransactionsMsg (uid : String) : String :=
  "\x7b\"error\": \"No transactions found for user_id \x27" ++ uid ++ "\x27.\"\x7d"

/-- The JSON error payload returned when the BigQuery call raises. -/
def bigQueryErrorMsg (e : String) : String :=
  "\x7b\"error\": \"An error occurred while querying BigQuery: " ++ e ++ "\"\x7d"

/-- get_transaction_data: the lookup argument stands for what the BigQuery
client produced (the ordered row list, or the exception message raised
anywhere inside the try block).  The tool itself never raises: every
branch returns a JSON string. -/
def get_transaction_data (uid : String) (lookup : Except String (List Transaction)) :
    String :=
  match lookup with
  | .error e => bigQueryErrorMsg e
  | .ok [] => noTransactionsMsg uid
  | .ok (t :: ts) => dumpTransactionList (t :: ts)

/-! ## Graph state, node updates and merging (app.py PART 3) -/

/-- FinancialGraphState: the TypedDict threaded through the graph.  Every
field is optional because the dict starts with only user_id and each node
returns a partial update. -/
structure FinancialGraphState where
  user_id : Option String := none
  analysis_result : Option String := none
  budget_plan : Option String := none
  investment_options : Option String := none
  raw_data : Option String := none
deriving DecidableEq, Repr

/-- LangGraph's per-key update rule for the default channel: a key present
in a node's returned dict replaces the stored value, an absent key leaves
it unchanged. -/
def updateField (new old : Option String) : Option String :=
  match new with
  | some v => some v
  | none => old

/-- The merge of a node's partial update into the running state, key by key. -/
def mergeState (s u : FinancialGraphState) : FinancialGraphState :=
  { user_id := updateField u.user_id s.user_id,
    analysis_result := updateField u.analysis_result s.analysis_result,
    budget_plan := updateField u.budget_plan s.budget_plan,
    investment_options := updateField u.investment_options s.investment_options,
    raw_data := updateField u.raw_data s.raw_data }

/-- The value AgentExecutor.invoke returns to the analyzer node: the final
output text and, when the executor was configured to report them, the list
of intermediate tool observations (only the observation component of each
(action, observation) pair is modelled, as the code reads only index 1). -/
structure AgentResult where
  output : String
  intermediate_steps : Option (List String)
deriving DecidableEq, Repr

/-- The expression result.get(\x27intermediate_steps\x27, [(\x7b\x7d, \x27\x27)])[0][1]:
a missing key falls back to the one-element default list (observation
\x27\x27), while a present-but-empty list makes the [0] subscript raise
IndexError. -/
def rawDataResult (r : AgentResult) : Except String String :=
  match r.intermediate_steps with
  | none => .ok ""
  | some [] => .error "IndexError: list index out of range"
  | some (obs :: _) => .ok obs

/-- The fixed failure narrative the analyzer writes when the substring
check on the raw tool output fires. -/
def failedRetrieveMsg (raw : String) : String :=
  "Failed to retrieve data. Check user ID and database.\nDetails: " ++ raw

/-- Outcome of one node body: whether the generation service was invoked,
and the returned partial update or the exception that escaped the node. -/
structure NodeOutcome where
  calledService : Bool
  result : Except String FinancialGraphState
deriving Repr

/-- analyzer_agent_node.  The resp argument is what agent_executor.invoke
would produce: an AgentResult, or the exception a failed generation call
raises.  The node reads state[\x27user_id\x27] (KeyError if absent), runs the
agent once, extracts the first tool observation, and branches on the
Python test "error" in raw_data_result. -/
def analyzer_agent_node (state : FinancialGraphState)
    (resp : Except String AgentResult) : NodeOutcome :=
  match state.user_id with
  | none => ⟨false, .error "KeyError: \x27user_id\x27"⟩
  | some _ =>
    match resp with
    | .error e => ⟨true, .error e⟩
    | .ok result =>
      ⟨true,
        match rawDataResult result with
        | .error e => .error e
        | .ok raw =>
          if strContains raw "error" then
            .ok { analysis_result := some (failedRetrieveMsg raw) }
          else
            .ok { analysis_result := some result.output, raw_data := some raw }⟩

/-- budgetor_agent_node: reads state[\x27analysis_result\x27] (KeyError if
absent), invokes the chain once, and returns the budget_plan update. -/
def budgetor_agent_node (state : FinancialGraphState)
    (resp : Except String String) : NodeOutcome :=
  match state.analysis_result with
  | none => ⟨false, .error "KeyError: \x27analysis_result\x27"⟩
  | some _ =>
    match resp with
    | .error e => ⟨true, .error e⟩
    | .ok content => ⟨true, .ok { budget_plan := some content }⟩

/-- investor_agent_node: reads state[\x27budget_plan\x27] (KeyError if absent),
invokes the chain once, and returns the investment_options update. -/
def investor_agent_node (state : FinancialGraphState)
    (resp : Except String String) : NodeOutcome :=
  match state.budget_plan with
  | none => ⟨false, .error "KeyError: \x27budget_plan\x27"⟩
  | some _ =>
    match resp with
    | .error e => ⟨true, .error e⟩
    | .ok content => ⟨true, .ok { investment_options := some content }⟩

/-! ## Workflow assembly and invocation (app.py PART 4 and the invoke call) -/

/-- The edges added in PART 4; the target none stands for END. -/
def graphEdges : List (String × Option String) :=
  [("analyzer", some "budgetor"), ("budgetor", some "investor"), ("investor", none)]

/-- The entry point set by workflow.set_entry_point. -/
def entryPoint : String := "analyzer"

/-- The recursion_limit passed to app.invoke at the call site. -/
def recursion_limit : Nat := 5

/-- Successor of a node in the compiled graph. -/
def nextNode (n : String) : Option String :=
  match graphEdges.find? fun e => e.fst = n with
  | some e => e.snd
  | none => none

/-- What the external collaborators would answer during one run: the
agent-executor result for the analyzer and the chain results for the two
downstream nodes (Except.error marks a generation-service failure). -/
structure ServiceResponses where
  analyzerResult : Except String AgentResult
  budgetorResp : Except String String
  investorResp : Except String String

/-- Final status of a run: normal completion, or the name of the failing
node together with the error that escaped it. -/
inductive Outcome where
  | ok : Outcome
  | failed (stage : String) (err : String) : Outcome
deriving DecidableEq, Repr

/-- Full instrumented trace of one app.invoke call. -/
structure RunTrace where
  visited : List String
  serviceCalls : List String
  states : List FinancialGraphState
  record : FinancialGraphState
  outcome : Outcome
deriving Repr

/-- Dispatch of one super-step to the node registered under the name. -/
def runNode (node : String) (resp : ServiceResponses) (s : FinancialGraphState) :
    NodeOutcome :=
  if node = "analyzer" then analyzer_agent_node s resp.analyzerResult
  else if node = "budgetor" then budgetor_agent_node s resp.budgetorResp
  else if node = "investor" then investor_agent_node s resp.investorResp
  else ⟨false, .error ("unknown node: " ++ node)⟩

/-- The LangGraph execution loop: run the current node, merge its update,
follow the single outgoing edge, and stop with GraphRecursionError when
the step budget is exhausted before END is reached.  The accumulators
collect nodes entered, generation-service calls made, and the state after
each merge (most recent first; reversed on exit). -/
def execFrom (resp : ServiceResponses) :
    Nat → Option String → FinancialGraphState →
    List String → List String → List FinancialGraphState → RunTrace
  | _, none, s, visited, calls, states =>
    { visited := visited.reverse, serviceCalls := calls.reverse,
      states := states.reverse, record := s, outcome := .ok }
  | 0, some _, s, visited, calls, states =>
    { visited := visited.reverse, serviceCalls := calls.reverse,
      states := states.reverse, record := s,
      outcome := .failed "graph" "GraphRecursionError" }
  | fuel + 1, some node, s, visited, calls, states =>
    let nr := runNode node resp s
    let calls' := if nr.calledService then node :: calls else calls
    match nr.result with
    | .error e =>
      { visited := (node :: visited).reverse, serviceCalls := calls'.reverse,
        states := states.reverse, record := s, outcome := .failed node e }
    | .ok u =>
      let s' := mergeState s u
      execFrom resp fuel (nextNode node) s' (node :: visited) calls' (s' :: states)

/-- app.invoke(\x7b"user_id": uid\x7d, \x7b"recursion_limit": 5\x7d): start from a
state holding only user_id and drive the graph from the entry point. -/
def app_invoke (resp : ServiceResponses) (uid : String) : RunTrace :=
  execFrom resp recursion_limit (some entryPoint)
    { user_id := some uid } [] [] [{ user_id := some uid }]

/-! ## Startup configuration checks (app.py PART 1) -/

/-- Result of module start: either the script proceeds past PART 1, or a
st.stop call halts it with the displayed message. -/
inductive StartupOutcome where
  | started : StartupOutcome
  | stopped (msg : String) : StartupOutcome
deriving DecidableEq, Repr

/-- The try block of lines 31-38 only builds a path string and assigns an
environment variable; neither operation inspects the filesystem, so it
succeeds whether or not key.json exists.  The argument records whether the
credentials file is present and is deliberately unused, mirroring the code. -/
def credentialsSetupOk (_keyJsonExists : Bool) : Bool := true

/-- PART 1 of the script: the credentials path block, then the
GOOGLE_API_KEY presence test (Python falsiness: absent or empty both
fail), then the LLM constructor guarded by try/except. -/
def startup (keyJsonExists : Bool) (apiKey : Option String) (llmInitOk : Bool) :
    StartupOutcome :=
  if credentialsSetupOk keyJsonExists = false then
    .stopped "Error setting up Google Cloud credentials path"
  else if (apiKey.getD "").isEmpty then
    .stopped "GOOGLE_API_KEY not found. Please add it to your .env file."
  else if llmInitOk then .started
  else .stopped "Failed to initialize the language model"

/-! ## The presentation layer's metric extraction (app.py parse_metrics) -/

/-- Characters of the regex class [  followed by d, comma, dot ] used in the
capture groups of parse_metrics. -/
def isAmountChar (c : Char) : Bool := c.isDigit || c = ',' || c = '.'

/-- Characters matched by the class combining backslash-s with the
non-breaking space, as in the parse_metrics patterns. -/
def isSpaceClass (c : Char) : Bool :=
  c = ' ' || c = '\t' || c = '\n' || c = '\r' || c = '\x0b' || c = '\x0c' || c = '\xa0'

/-- If the label starts here, return the remaining characters. -/
def stripLabel : List Char → List Char → Option (List Char)
  | [], s => some s
  | _ :: _, [] => none
  | a :: as, b :: bs => if a = b then stripLabel as bs else none

/-- Attempt the whole pattern label, spaces, dollar, optional minus (net
flow only), then a non-empty run of amount characters, anchored at the
head of the character list; returns the capture group. -/
def matchAt (label : List Char) (allowNeg : Bool) (s : List Char) :
    Option (List Char) :=
  match stripLabel label s with
  | none => none
  | some rest =>
    match rest.dropWhile isSpaceClass with
    | '$' :: rest2 =>
      match rest2, allowNeg with
      | '-' :: rest3, true =>
        let cap := rest3.takeWhile isAmountChar
        if cap.isEmpty then none else some ('-' :: cap)
      | _, _ =>
        let cap := rest2.takeWhile isAmountChar
        if cap.isEmpty then none else some cap
    | _ => none

/-- re.search: try the pattern at each successive start position and
return the leftmost capture. -/
def searchCapture (label : List Char) (allowNeg : Bool) : List Char → Option (List Char)
  | [] => matchAt label allowNeg []
  | c :: t =>
    match matchAt label allowNeg (c :: t) with
    | some cap => some cap
    | none => searchCapture label allowNeg t

/-- String-level wrapper for one re.search call of parse_metrics. -/
def searchLabelDollar (label : String) (allowNeg : Bool) (s : String) : Option String :=
  match searchCapture label.toList allowNeg s.toList with
  | some cap => some (String.mk cap)
  | none => none

/-- Python float() accepts the comma-stripped capture exactly when it has
at most one dot and at least one digit (captures consist only of digits,
commas, dots and an optional leading minus). -/
def floatLiteralOk (s : String) : Bool :=
  let t := s.toList.filter fun c => c ≠ ','
  let t := match t with
    | '-' :: r => r
    | r => r
  (t.filter fun c => c = '.').length ≤ 1 && t.any Char.isDigit

/-- The three values parse_metrics extracts.  A none stands for the "N/A"
defaults; a some holds the captured numeric text.  The cosmetic dollar-sign
re-prefixing and the two-decimal reformatting of net flow are display-only
and not modelled; the float() conversion that can reject a malformed net
flow capture (leaving the default in place via the except handler) is. -/
structure ParsedMetrics where
  totalIncome : Option String
  totalSpending : Option String
  netFlow : Option String
deriving DecidableEq, Repr

/-- parse_metrics: the three regex searches over the analysis text. -/
def parse_metrics (analysis_result : String) : ParsedMetrics :=
  let income := searchLabelDollar "Total Income:" false analysis_result
  let spending := searchLabelDollar "Total Spending:" false analysis_result
  let netRaw := searchLabelDollar "Net Flow:" true analysis_result
  { totalIncome := income,
    totalSpending := spending,
    netFlow := match netRaw with
      | some cap => if floatLiteralOk cap then some cap else none
      | none => none }

/-! ## The metrics the specification defines (spec section 3, Metrics
Block).  The application code never computes these sums -- the prompt asks
the generation service to produce them -- so they appear here only as the
reference values the claims compare against. -/

/-- Sum of the positive amounts of a transaction sequence. -/
def specTotalIncome (ts : List Transaction) : Int :=
  ((ts.filter fun t => 0 < t.amount).map Transaction.amount).sum

/-- Sum of the negative amounts of a transaction sequence. -/
def specTotalSpending (ts : List Transaction) : Int :=
  ((ts.filter fun t => t.amount < 0).map Transaction.amount).sum

/-- Net flow: income plus spending. -/
def specNetFlow (ts : List Transaction) : Int :=
  specTotalIncome ts + specTotalSpending ts

/-! ## State-evolution predicates used by the invariants claim -/

/-- One field never regresses: either it was unset before, or it keeps
exactly its previous value (no overwrite). -/
def fieldPreserved (a b : Option String) : Prop := a = none ∨ b = a

instance (a b : Option String) : Decidable (fieldPreserved a b) := by
  unfold fieldPreserved
  infer_instance

/-- A state extends another: every field already written is carried over
unchanged, so a merge may only fill fields that were still unset. -/
def recExtends (a b : FinancialGraphState) : Prop :=
  fieldPreserved a.user_id b.user_id ∧
  fieldPreserved a.analysis_result b.analysis_result ∧
  fieldPreserved a.budget_plan b.budget_plan ∧
  fieldPreserved a.investment_options b.investment_options ∧
  fieldPreserved a.raw_data b.raw_data

/-- Concrete transaction rows used in the non-empty-ledger scenarios
(amounts +2500, -800, -300 for user_001; none of the serialized fields
contains the substring the analyzer's failure test looks for). -/
def sampleTransactions : List Transaction :=
  [⟨"2024-01-05", "Salary", 2500, "Income", "BankA"⟩,
   ⟨"2024-01-07", "Rent", -800, "Housing", "BankA"⟩,
   ⟨"2024-01-09", "Groceries", -300, "Food", "BankA"⟩]

/-- A single-row ledger used to instantiate hypotheses of the amended
metrics claim. -/
def singleTransaction : List Transaction :=
  [⟨"2024-03-01", "Salary", 2500, "Income", "BankA"⟩]

/-- A successful, non-empty ledger whose description text happens to
contain the word the analyzer's failure test searches for. -/
def trickyTransactions : List Transaction :=
  [⟨"2024-02-01", "Refund for billing error", -45, "Fees", "BankA"⟩]

/-! # Theorems -/

/-! ## String-search lemmas -/

theorem isPrefixCh_append (n l l' : List Char) (h : isPrefixCh n l = true) :
    isPrefixCh n (l ++ l') = true := by
  induction n generalizing l with
  | nil => simp [isPrefixCh]
  | cons a as ih =>
    cases l with
    | nil => simp [isPrefixCh] at h
    | cons b bs =>
      simp only [List.cons_append, isPrefixCh, Bool.and_eq_true] at h ⊢
      exact ⟨h.1, ih bs h.2⟩

theorem containsSub_append_left (n p s : List Char) (h : containsSub n p = true) :
    containsSub n (p ++ s) = true := by
  induction p with
  | nil =>
    simp only [containsSub, List.isEmpty_iff] at h
    subst h
    cases s with
    | nil => simp [containsSub]
    | cons c t => simp [containsSub, isPrefixCh]
  | cons c t ih =>
    simp only [containsSub, Bool.or_eq_true] at h
    rcases h with h | h
    · simp only [List.cons_append, containsSub, Bool.or_eq_true]
      exact Or.inl (isPrefixCh_append _ _ _ h)
    · simp only [List.cons_append, containsSub, Bool.or_eq_true]
      exact Or.inr (ih h)

/-- If the needle occurs in a string, it occurs in any right-extension. -/
theorem strContains_append_left (p s n : String) (h : strContains p n = true) :
    strContains (p ++ s) n = true := by
  unfold strContains at h ⊢
  have hd : (p ++ s).toList = p.toList ++ s.toList := by
    simp [String.toList, String.data_append]
  rw [hd]
  exact containsSub_append_left _ _ _ h

/-- The no-rows payload always contains the marker word, whatever the
user id is. -/
theorem noTransactionsMsg_has_error (uid : String) :
    strContains (noTransactionsMsg uid) "error" = true := by
  unfold noTransactionsMsg
  apply strContains_append_left
  apply strContains_append_left
  decide

/-- The no-rows payload always states that no transactions were found. -/
theorem noTransactionsMsg_states_none_found (uid : String) :
    strContains (noTransactionsMsg uid) "No transactions found" = true := by
  unfold noTransactionsMsg
  apply strContains_append_left
  apply strContains_append_left
  decide

/-- The exception payload always contains the marker word, whatever the
underlying exception text is. -/
theorem bigQueryErrorMsg_has_error (e : String) :
    strContains (bigQueryErrorMsg e) "error" = true := by
  unfold bigQueryErrorMsg
  apply strContains_append_left
  apply strContains_append_left
  decide

/-! ## Merge and node-shape lemmas -/

@[simp]
theorem updateField_none (a : Option String) : updateField none a = a := rfl

@[simp]
theorem updateField_some (v : String) (a : Option String) :
    updateField (some v) a = some v := rfl

theorem fieldPreserved_self (a : Option String) : fieldPreserved a a :=
  Or.inr rfl

theorem fieldPreserved_none_left (b : Option String) : fieldPreserved none b :=
  Or.inl rfl

/-- Any successful analyzer update writes analysis_result and touches
neither user_id, budget_plan nor investment_options. -/
theorem analyzer_update_shape (s : FinancialGraphState) (resp : Except String AgentResult)
    (u : FinancialGraphState) (h : (analyzer_agent_node s resp).result = .ok u) :
    u.user_id = none ∧ u.budget_plan = none ∧ u.investment_options = none ∧
    (∃ a, u.analysis_result = some a) := by
  unfold analyzer_agent_node at h
  cases hu : s.user_id with
  | none => simp [hu] at h
  | some v =>
    simp only [hu] at h
    cases resp with
    | error e => simp at h
    | ok result =>
      simp only at h
      cases hr : rawDataResult result with
      | error e => simp [hr] at h
      | ok raw =>
        simp only [hr] at h
        by_cases hc : strContains raw "error" = true
        · simp [hc] at h
          subst h
          simp
        · simp [Bool.not_eq_true] at hc
          simp [hc] at h
          subst h
          simp

/-! ## Claim C6 -/

/-- C6: the claim says the analyzer handles an empty tool-call trace
without raising, treating it as a lookup failure.  The code instead
subscripts the empty intermediate_steps list, so the IndexError escapes
the node: evaluating the node at a result whose trace is the empty list
yields the exception, not the degenerate update. -/
theorem c6_empty_trace_raises :
    analyzer_agent_node { user_id := some "user_001" }
        (Except.ok ⟨"All done.", some []⟩) =
      ⟨true, Except.error "IndexError: list index out of range"⟩ := rfl

/-! ## Claim C10 -/

/-- C10: a successful, non-empty ledger payload whose description text
contains the word "error" (while the payload itself carries no "error"
JSON key) makes the analyzer's substring test fire, so the node writes
the "Failed to retrieve data" narrative instead of the real analysis. -/
theorem c10_success_payload_takes_failure_branch :
    trickyTransactions ≠ [] ∧
    get_transaction_data "user_002" (Except.ok trickyTransactions) =
      dumpTransactionList trickyTransactions ∧
    strContains (dumpTransactionList trickyTransactions) "\"error\":" = false ∧
    strContains (dumpTransactionList trickyTransactions) "error" = true ∧
    analyzer_agent_node { user_id := some "user_002" }
        (Except.ok ⟨"A full analysis.", some [dumpTransactionList trickyTransactions]⟩) =
      ⟨true, Except.ok { analysis_result := some (failedRetrieveMsg (dumpTransactionList trickyTransactions)) }⟩ := by
  refine ⟨by decide, rfl, by decide, by decide, rfl⟩

/-! ## Claim C7 -/

/-- C7: a lookup that raises and a lookup that returns no rows both yield
an error-marked JSON payload from the ledger tool, and both route the
analyzer into the same failure branch, producing the same fixed narrative
(followed by the respective details). -/
theorem c7_lookup_failure_and_empty_equivalent (uid e llmOut : String) :
    strContains (get_transaction_data uid (Except.error e)) "error" = true ∧
    strContains (get_transaction_data uid (Except.ok [])) "error" = true ∧
    analyzer_agent_node { user_id := some uid }
        (Except.ok ⟨llmOut, some [get_transaction_data uid (Except.error e)]⟩) =
      ⟨true, Except.ok { analysis_result := some (failedRetrieveMsg (get_transaction_data uid (Except.error e))) }⟩ ∧
    analyzer_agent_node { user_id := some uid }
        (Except.ok ⟨llmOut, some [get_transaction_data uid (Except.ok [])]⟩) =
      ⟨true, Except.ok { analysis_result := some (failedRetrieveMsg (get_transaction_data uid (Except.ok []))) }⟩ := by
  have h1 := bigQueryErrorMsg_has_error e
  have h2 := noTransactionsMsg_has_error uid
  refine ⟨by simpa [get_transaction_data] using h1,
    by simpa [get_transaction_data] using h2, ?_, ?_⟩ <;>
    simp [analyzer_agent_node, rawDataResult, get_transaction_data, h1, h2]

/-! ## Claim C1 -/

/-- C1 counterexample: for a user with an empty transaction sequence the
analyzer does not write a zero-metrics analysis; it writes the fixed
"Failed to retrieve data" message with the raw error payload appended,
and the presentation-layer extraction finds no metric values at all in
that text (all three come back as the "N/A" defaults, not 0). -/
theorem c1_counterexample :
    (analyzer_agent_node { user_id := some "user_999" }
        (Except.ok ⟨"Narrative text.",
          some [get_transaction_data "user_999" (Except.ok [])]⟩)).result =
      Except.ok { analysis_result := some (failedRetrieveMsg (noTransactionsMsg "user_999")) } ∧
    parse_metrics (failedRetrieveMsg (noTransactionsMsg "user_999")) =
      ⟨none, none, none⟩ := by
  refine ⟨rfl, by decide⟩

/-- C1 amended: when the transaction sequence is empty or the lookup
fails, the analyzer writes the fixed failure narrative carrying the
error payload (which, in the empty case, states that no transactions
were found); the stage does not fail and the budgetor and investor nodes
still run to completion on that degenerate analysis text.  No
zero-valued metrics block is part of this behaviour. -/
theorem c1_amended_degenerate_path (uid e llmOut b i : String) :
    ((app_invoke ⟨Except.ok ⟨llmOut, some [get_transaction_data uid (Except.ok [])]⟩,
        Except.ok b, Except.ok i⟩ uid).outcome = Outcome.ok ∧
      (app_invoke ⟨Except.ok ⟨llmOut, some [get_transaction_data uid (Except.ok [])]⟩,
        Except.ok b, Except.ok i⟩ uid).record.analysis_result =
        some (failedRetrieveMsg (noTransactionsMsg uid)) ∧
      (app_invoke ⟨Except.ok ⟨llmOut, some [get_transaction_data uid (Except.ok [])]⟩,
        Except.ok b, Except.ok i⟩ uid).record.budget_plan = some b ∧
      (app_invoke ⟨Except.ok ⟨llmOut, some [get_transaction_data uid (Except.ok [])]⟩,
        Except.ok b, Except.ok i⟩ uid).record.investment_options = some i) ∧
    ((app_invoke ⟨Except.ok ⟨llmOut, some [get_transaction_data uid (Except.error e)]⟩,
        Except.ok b, Except.ok i⟩ uid).outcome = Outcome.ok ∧
      (app_invoke ⟨Except.ok ⟨llmOut, some [get_transaction_data uid (Except.error e)]⟩,
        Except.ok b, Except.ok i⟩ uid).record.analysis_result =
        some (failedRetrieveMsg (bigQueryErrorMsg e)) ∧
      (app_invoke ⟨Except.ok ⟨llmOut, some [get_transaction_data uid (Except.error e)]⟩,
        Except.ok b, Except.ok i⟩ uid).record.budget_plan = some b ∧
      (app_invoke ⟨Except.ok ⟨llmOut, some [get_transaction_data uid (Except.error e)]⟩,
        Except.ok b, Except.ok i⟩ uid).record.investment_options = some i) ∧
    strContains (noTransactionsMsg uid) "No transactions found" = true := by
  have hA := noTransactionsMsg_has_error uid
  have hB := bigQueryErrorMsg_has_error e
  refine ⟨⟨?_, ?_, ?_, ?_⟩, ⟨?_, ?_, ?_, ?_⟩, noTransactionsMsg_states_none_found uid⟩ <;>
    simp [app_invoke, recursion_limit, entryPoint, execFrom, runNode, analyzer_agent_node,
      budgetor_agent_node, investor_agent_node, rawDataResult, get_transaction_data,
      nextNode, graphEdges, mergeState, updateField, hA, hB]

/-! ## Claim C2 -/

/-- C2 counterexample: a run over a non-empty transaction sequence
(income 2500, spending -1100, net flow 1400) in which the generation
service's final text contains no metric labels: the analyzer stores that
text verbatim, and the extraction comes back empty -- no values equal to
the transaction sums can be recovered from analysis_result. -/
theorem c2_counterexample :
    sampleTransactions ≠ [] ∧
    specTotalIncome sampleTransactions = 2500 ∧
    specTotalSpending sampleTransactions = -1100 ∧
    specNetFlow sampleTransactions = 1400 ∧
    (analyzer_agent_node { user_id := some "user_001" }
        (Except.ok ⟨"Here is your analysis.",
          some [get_transaction_data "user_001" (Except.ok sampleTransactions)]⟩)).result =
      Except.ok
        { analysis_result := some "Here is your analysis.",
          raw_data := some (dumpTransactionList sampleTransactions) } ∧
    parse_metrics "Here is your analysis." = ⟨none, none, none⟩ := by
  refine ⟨by decide, by decide, by decide, by decide, rfl, by decide⟩

/-- C2 amended: for a non-empty sequence whose serialized payload does
not contain the substring "error", the analyzer stores the generation
service's output verbatim as analysis_result (with the payload as
raw_data); whether the three metrics are extractable, and whether they
equal the transaction sums, is determined entirely by the service's text
-- the code neither computes nor validates them. -/
theorem c2_amended_verbatim_passthrough (ts : List Transaction) (uid out : String)
    (_hne : ts ≠ [])
    (hclean : strContains (get_transaction_data uid (Except.ok ts)) "error" = false) :
    (analyzer_agent_node { user_id := some uid }
        (Except.ok ⟨out, some [get_transaction_data uid (Except.ok ts)]⟩)).result =
      Except.ok
        { analysis_result := some out,
          raw_data := some (get_transaction_data uid (Except.ok ts)) } := by
  simp [analyzer_agent_node, rawDataResult, hclean]

/-- Witness for the amended C2 statement at a one-row ledger. -/
theorem c2_amended_witness :
    singleTransaction ≠ [] ∧
    strContains (get_transaction_data "user_001" (Except.ok singleTransaction)) "error" =
      false ∧
    (analyzer_agent_node { user_id := some "user_001" }
        (Except.ok ⟨"Quarterly report.",
          some [get_transaction_data "user_001" (Except.ok singleTransaction)]⟩)).result =
      Except.ok
        { analysis_result := some "Quarterly report.",
          raw_data := some (get_transaction_data "user_001" (Except.ok singleTransaction)) } :=
  ⟨by decide, by decide,
    c2_amended_verbatim_passthrough singleTransaction "user_001" "Quarterly report."
      (by decide) (by decide)⟩

/-! ## Claim C3 -/

/-- C3 counterexample: the analyzer performs no post-processing.  With a
service output that begins with a stray format-marker line, the stored
analysis_result still begins with that marker (nothing is stripped) and
contains no serialized metrics mapping and no fixed metric label
(nothing is prepended), contradicting the claimed
metrics-block-plus-narrative concatenation. -/
theorem c3_counterexample :
    (analyzer_agent_node { user_id := some "user_001" }
        (Except.ok ⟨"```markdown\nLooks great.",
          some [get_transaction_data "user_001" (Except.ok singleTransaction)]⟩)).result =
      Except.ok
        { analysis_result := some "```markdown\nLooks great.",
          raw_data := some (dumpTransactionList singleTransaction) } ∧
    isPrefixCh "```markdown\n".toList "```markdown\nLooks great.".toList = true ∧
    strContains "```markdown\nLooks great." "total_income" = false ∧
    strContains "```markdown\nLooks great." "Total Income" = false := by
  refine ⟨rfl, by decide, by decide, by decide⟩

/-- C3 amended: when the substring test on the raw tool output does not
fire, the analyzer writes the generation service's output verbatim as
analysis_result, with no marker stripping and no prepended metrics
block. -/
theorem c3_amended_no_postprocessing (uid out raw : String)
    (hclean : strContains raw "error" = false) :
    (analyzer_agent_node { user_id := some uid } (Except.ok ⟨out, some [raw]⟩)).result =
      Except.ok { analysis_result := some out, raw_data := some raw } := by
  simp [analyzer_agent_node, rawDataResult, hclean]

/-- Witness for the amended C3 statement. -/
theorem c3_amended_witness :
    strContains "plain data" "error" = false ∧
    (analyzer_agent_node { user_id := some "user_003" }
        (Except.ok ⟨"```markdown\nBody.", some ["plain data"]⟩)).result =
      Except.ok
        { analysis_result := some "```markdown\nBody.",
          raw_data := some "plain data" } :=
  ⟨by decide,
    c3_amended_no_postprocessing "user_003" "```markdown\nBody." "plain data" (by decide)⟩

/-! ## Claim C4 -/

/-- C4: when the budgetor's generation call fails, the run stops right
there: only analyzer and budgetor were visited, the generation service
was consulted exactly once per visited stage (no retry, and the investor
service is never consulted), the outcome names the budgetor as the
failing stage with the underlying error, the record at termination holds
no budget_plan and no investment_options, and the analyzer's completed
analysis_result is populated in it. -/
theorem c4_budgetor_failure_terminates (uid budErr : String)
    (iResp : Except String String) (ar : AgentResult) (u : FinancialGraphState)
    (h : analyzer_agent_node { user_id := some uid } (Except.ok ar) = ⟨true, Except.ok u⟩) :
    (app_invoke ⟨Except.ok ar, Except.error budErr, iResp⟩ uid).outcome =
      Outcome.failed "budgetor" budErr ∧
    (app_invoke ⟨Except.ok ar, Except.error budErr, iResp⟩ uid).visited =
      ["analyzer", "budgetor"] ∧
    (app_invoke ⟨Except.ok ar, Except.error budErr, iResp⟩ uid).serviceCalls =
      ["analyzer", "budgetor"] ∧
    (app_invoke ⟨Except.ok ar, Except.error budErr, iResp⟩ uid).record.budget_plan =
      none ∧
    (app_invoke ⟨Except.ok ar, Except.error budErr, iResp⟩ uid).record.investment_options =
      none ∧
    (∃ a, (app_invoke ⟨Except.ok ar, Except.error budErr, iResp⟩ uid).record.analysis_result =
      some a) := by
  have hres : (analyzer_agent_node { user_id := some uid } (Except.ok ar)).result =
      Except.ok u := by rw [h]
  obtain ⟨h1, h2, h3, h4⟩ := analyzer_update_shape _ _ _ hres
  obtain ⟨a, ha⟩ := h4
  simp [app_invoke, recursion_limit, entryPoint, execFrom, runNode, h, nextNode,
    graphEdges, mergeState, updateField, budgetor_agent_node, ha, h1, h2, h3]

/-- Witness for C4 at a concrete analyzer result (trace key absent, so
the raw observation defaults to the empty string and the success branch
is taken). -/
theorem c4_witness :
    (app_invoke ⟨Except.ok ⟨"Out", none⟩, Except.error "quota exceeded",
        Except.ok "unused"⟩ "user_001").outcome =
      Outcome.failed "budgetor" "quota exceeded" ∧
    (app_invoke ⟨Except.ok ⟨"Out", none⟩, Except.error "quota exceeded",
        Except.ok "unused"⟩ "user_001").visited = ["analyzer", "budgetor"] ∧
    (app_invoke ⟨Except.ok ⟨"Out", none⟩, Except.error "quota exceeded",
        Except.ok "unused"⟩ "user_001").serviceCalls = ["analyzer", "budgetor"] ∧
    (app_invoke ⟨Except.ok ⟨"Out", none⟩, Except.error "quota exceeded",
        Except.ok "unused"⟩ "user_001").record.budget_plan = none ∧
    (app_invoke ⟨Except.ok ⟨"Out", none⟩, Except.error "quota exceeded",
        Except.ok "unused"⟩ "user_001").record.investment_options = none ∧
    (∃ a, (app_invoke ⟨Except.ok ⟨"Out", none⟩, Except.error "quota exceeded",
        Except.ok "unused"⟩ "user_001").record.analysis_result = some a) :=
  c4_budgetor_failure_terminates "user_001" "quota exceeded" (Except.ok "unused")
    ⟨"Out", none⟩ { analysis_result := some "Out", raw_data := some "" } rfl

/-! ## Claim C5 -/

/-- C5: in every run -- whatever the collaborators answer -- the shared
record only ever grows: consecutive merged states preserve every field
already written (no overwrite, union-merge only), the user_id set at run
start is carried unchanged through every state and into the final
record, and each node's successful update leaves the fields owned by the
other stages untouched (one writer per field). -/
theorem c5_single_writer_union_merge (resp : ServiceResponses) (uid : String) :
    List.Chain' recExtends (app_invoke resp uid).states ∧
    (∀ s ∈ (app_invoke resp uid).states, s.user_id = some uid) ∧
    (app_invoke resp uid).record.user_id = some uid ∧
    (∀ s r u, (analyzer_agent_node s r).result = Except.ok u →
      u.user_id = none ∧ u.budget_plan = none ∧ u.investment_options = none) ∧
    (∀ s r u, (budgetor_agent_node s r).result = Except.ok u →
      u.user_id = none ∧ u.analysis_result = none ∧ u.investment_options = none ∧
      u.raw_data = none) ∧
    (∀ s r u, (investor_agent_node s r).result = Except.ok u →
      u.user_id = none ∧ u.analysis_result = none ∧ u.budget_plan = none ∧
      u.raw_data = none) := by
  refine ⟨?_, ?_, ?_, ?_, ?_, ?_⟩
  case _ =>
    obtain ⟨aR, bR, iR⟩ := resp
    cases aR with
    | error e =>
      simp [app_invoke, recursion_limit, entryPoint, execFrom, runNode,
        analyzer_agent_node]
    | ok ar =>
      cases hr : rawDataResult ar with
      | error e =>
        simp [app_invoke, recursion_limit, entryPoint, execFrom, runNode,
          analyzer_agent_node, hr]
      | ok raw =>
        cases hc : strContains raw "error" <;> cases bR <;> cases iR <;>
          simp [app_invoke, recursion_limit, entryPoint, execFrom, runNode,
            analyzer_agent_node, budgetor_agent_node, investor_agent_node, hr, hc,
            nextNode, graphEdges, mergeState, List.chain'_cons, recExtends,
            fieldPreserved]
  case _ =>
    obtain ⟨aR, bR, iR⟩ := resp
    cases aR with
    | error e =>
      simp [app_invoke, recursion_limit, entryPoint, execFrom, runNode,
        analyzer_agent_node]
    | ok ar =>
      cases hr : rawDataResult ar with
      | error e =>
        simp [app_invoke, recursion_limit, entryPoint, execFrom, runNode,
          analyzer_agent_node, hr]
      | ok raw =>
        cases hc : strContains raw "error" <;> cases bR <;> cases iR <;>
          simp [app_invoke, recursion_limit, entryPoint, execFrom, runNode,
            analyzer_agent_node, budgetor_agent_node, investor_agent_node, hr, hc,
            nextNode, graphEdges, mergeState, updateField]
  case _ =>
    obtain ⟨aR, bR, iR⟩ := resp
    cases aR with
    | error e =>
      simp [app_invoke, recursion_limit, entryPoint, execFrom, runNode,
        analyzer_agent_node]
    | ok ar =>
      cases hr : rawDataResult ar with
      | error e =>
        simp [app_invoke, recursion_limit, entryPoint, execFrom, runNode,
          analyzer_agent_node, hr]
      | ok raw =>
        cases hc : strContains raw "error" <;> cases bR <;> cases iR <;>
          simp [app_invoke, recursion_limit, entryPoint, execFrom, runNode,
            analyzer_agent_node, budgetor_agent_node, investor_agent_node, hr, hc,
            nextNode, graphEdges, mergeState, updateField]
  case _ =>
    intro s r u h
    obtain ⟨h1, h2, h3, _⟩ := analyzer_update_shape s r u h
    exact ⟨h1, h2, h3⟩
  case _ =>
    intro s r u h
    unfold budgetor_agent_node at h
    cases ha : s.analysis_result with
    | none => simp [ha] at h
    | some a =>
      simp only [ha] at h
      cases r with
      | error e => simp at h
      | ok c =>
        simp at h
        subst h
        simp
  case _ =>
    intro s r u h
    unfold investor_agent_node at h
    cases hb : s.budget_plan with
    | none => simp [hb] at h
    | some bp =>
      simp only [hb] at h
      cases r with
      | error e => simp at h
      | ok c =>
        simp at h
        subst h
        simp

/-- Witness for C5 at a concrete run (all three collaborator calls
succeed, the ledger trace is the default empty observation). -/
theorem c5_witness :
    List.Chain' recExtends
      (app_invoke ⟨Except.ok ⟨"A", none⟩, Except.ok "B", Except.ok "C"⟩ "user_004").states ∧
    (∀ s ∈ (app_invoke ⟨Except.ok ⟨"A", none⟩, Except.ok "B", Except.ok "C"⟩
        "user_004").states, s.user_id = some "user_004") ∧
    (app_invoke ⟨Except.ok ⟨"A", none⟩, Except.ok "B", Except.ok "C"⟩
        "user_004").record.user_id = some "user_004" ∧
    (∀ s r u, (analyzer_agent_node s r).result = Except.ok u →
      u.user_id = none ∧ u.budget_plan = none ∧ u.investment_options = none) ∧
    (∀ s r u, (budgetor_agent_node s r).result = Except.ok u →
      u.user_id = none ∧ u.analysis_result = none ∧ u.investment_options = none ∧
      u.raw_data = none) ∧
    (∀ s r u, (investor_agent_node s r).result = Except.ok u →
      u.user_id = none ∧ u.analysis_result = none ∧ u.budget_plan = none ∧
      u.raw_data = none) :=
  c5_single_writer_union_merge ⟨Except.ok ⟨"A", none⟩, Except.ok "B", Except.ok "C"⟩
    "user_004"

/-! ## Claim C9 -/

/-- C9: a normal run of the fixed three-node chain visits exactly the
three nodes, strictly fewer visits than the recursion_limit of 5 passed
to app.invoke, and terminates normally -- the recursion guard never
fires. -/
theorem c9_three_visits_under_budget (uid b i : String) (ar : AgentResult)
    (u : FinancialGraphState)
    (h : analyzer_agent_node { user_id := some uid } (Except.ok ar) = ⟨true, Except.ok u⟩) :
    (app_invoke ⟨Except.ok ar, Except.ok b, Except.ok i⟩ uid).visited =
      ["analyzer", "budgetor", "investor"] ∧
    (app_invoke ⟨Except.ok ar, Except.ok b, Except.ok i⟩ uid).visited.length = 3 ∧
    3 < recursion_limit ∧
    (app_invoke ⟨Except.ok ar, Except.ok b, Except.ok i⟩ uid).outcome = Outcome.ok := by
  have hres : (analyzer_agent_node { user_id := some uid } (Except.ok ar)).result =
      Except.ok u := by rw [h]
  obtain ⟨h1, h2, h3, h4⟩ := analyzer_update_shape _ _ _ hres
  obtain ⟨a, ha⟩ := h4
  refine ⟨?_, ?_, by decide, ?_⟩ <;>
    simp [app_invoke, recursion_limit, entryPoint, execFrom, runNode, h, nextNode,
      graphEdges, mergeState, updateField, budgetor_agent_node, investor_agent_node,
      ha, h1, h2, h3]

/-- Witness for C9 at a concrete run. -/
theorem c9_witness :
    (app_invoke ⟨Except.ok ⟨"Out", none⟩, Except.ok "Plan", Except.ok "Advice"⟩
        "user_005").visited = ["analyzer", "budgetor", "investor"] ∧
    (app_invoke ⟨Except.ok ⟨"Out", none⟩, Except.ok "Plan", Except.ok "Advice"⟩
        "user_005").visited.length = 3 ∧
    3 < recursion_limit ∧
    (app_invoke ⟨Except.ok ⟨"Out", none⟩, Except.ok "Plan", Except.ok "Advice"⟩
        "user_005").outcome = Outcome.ok :=
  c9_three_visits_under_budget "user_005" "Plan" "Advice" ⟨"Out", none⟩
    { analysis_result := some "Out", raw_data := some "" } rfl

/-! ## Claim C8 -/

/-- C8 counterexample: the claim requires a process started with missing
credentials to refuse to start, but the startup sequence only builds the
key.json path string without checking the file, so with the credentials
file absent and a valid API key the script starts normally. -/
theorem c8_counterexample :
    startup false (some "valid-api-key") true = StartupOutcome.started ∧
    ∀ m, startup false (some "valid-api-key") true ≠ StartupOutcome.stopped m := by
  refine ⟨rfl, ?_⟩
  intro m h
  have hne : "valid-api-key".isEmpty = false := by decide
  simp [startup, credentialsSetupOk, hne] at h

/-- C8 amended: a missing (or empty) GOOGLE_API_KEY stops the script
before any run; a missing credentials file is not checked at startup, so
the process starts, and the configuration failure only surfaces inside
the ledger tool during a run -- where it is swallowed into the
degenerate-analysis path and the run still completes instead of
failing. -/
theorem c8_amended_startup_checks (kj llmOk : Bool) (k uid llmOut b i : String)
    (hk : k.isEmpty = false) :
    startup kj none llmOk =
      StartupOutcome.stopped "GOOGLE_API_KEY not found. Please add it to your .env file." ∧
    startup kj (some "") llmOk =
      StartupOutcome.stopped "GOOGLE_API_KEY not found. Please add it to your .env file." ∧
    startup false (some k) true = StartupOutcome.started ∧
    (app_invoke ⟨Except.ok ⟨llmOut,
        some [get_transaction_data uid
          (Except.error "FileNotFoundError: key.json was not found")]⟩,
        Except.ok b, Except.ok i⟩ uid).outcome = Outcome.ok ∧
    (app_invoke ⟨Except.ok ⟨llmOut,
        some [get_transaction_data uid
          (Except.error "FileNotFoundError: key.json was not found")]⟩,
        Except.ok b, Except.ok i⟩ uid).record.analysis_result =
      some (failedRetrieveMsg
        (bigQueryErrorMsg "FileNotFoundError: key.json was not found")) := by
  have hB := bigQueryErrorMsg_has_error "FileNotFoundError: key.json was not found"
  have h0 : ("" : String).isEmpty = true := by decide
  refine ⟨by simp [startup, credentialsSetupOk, h0], by simp [startup, credentialsSetupOk, h0],
    by simp [startup, credentialsSetupOk, hk], ?_, ?_⟩ <;>
    simp [app_invoke, recursion_limit, entryPoint, execFrom, runNode, analyzer_agent_node,
      budgetor_agent_node, investor_agent_node, rawDataResult, get_transaction_data,
      nextNode, graphEdges, mergeState, updateField, hB]

/-- Witness for the amended C8 statement. -/
theorem c8_amended_witness :
    ("AIzaSy-example".isEmpty = false) ∧
    (startup true none true =
      StartupOutcome.stopped "GOOGLE_API_KEY not found. Please add it to your .env file." ∧
    startup true (some "") true =
      StartupOutcome.stopped "GOOGLE_API_KEY not found. Please add it to your .env file." ∧
    startup false (some "AIzaSy-example") true = StartupOutcome.started ∧
    (app_invoke ⟨Except.ok ⟨"Text",
        some [get_transaction_data "user_001"
          (Except.error "FileNotFoundError: key.json was not found")]⟩,
        Except.ok "Plan", Except.ok "Advice"⟩ "user_001").outcome = Outcome.ok ∧
    (app_invoke ⟨Except.ok ⟨"Text",
        some [get_transaction_data "user_001"
          (Except.error "FileNotFoundError: key.json was not found")]⟩,
        Except.ok "Plan", Except.ok "Advice"⟩ "user_001").record.analysis_result =
      some (failedRetrieveMsg
        (bigQueryErrorMsg "FileNotFoundError: key.json was not found"))) :=
  ⟨by decide,
    c8_amended_startup_checks true true "AIzaSy-example" "user_001" "Text" "Plan"
      "Advice" (by decide)⟩
